import Mathlib

/-!
Shallow embedding of the resume-management CRUD service
(`app.py`, `helpers.py`, `models.py`) and proofs of its
claims of the specification.

Request payloads (JSON bodies and form data) are modelled as association
lists of string keys to JSON-like values; the in-memory store `data` is a
structure with one list per resource kind.  Handlers are pure functions
from a parsed request to a `(body, status)` response together with the
store after the request.  Python operations that can raise an uncaught
exception are embedded with `Except PyErr`.
-/

namespace Resume

/-- A JSON-like Python value as it appears in a parsed request body. -/
inductive Value where
  | vNull : Value
  | vStr (s : String) : Value
  | vInt (n : Int) : Value
  | vBool (b : Bool) : Value
  deriving DecidableEq, Repr

/-- A parsed request body: a Python dict with string keys
(`request.get_json()` / `request.form`). -/
abbrev Dict := List (String × Value)

/-- `key in d` for a Python dict. -/
def dictContains (d : Dict) (key : String) : Bool :=
  d.any (fun p => p.1 = key)

/-- `d[key]` for a Python dict, `none` when the key is absent. -/
def dictGet (d : Dict) (key : String) : Option Value :=
  (d.find? (fun p => p.1 = key)).map Prod.snd

/-- `d.get(key, default)` for a Python dict. -/
def dictGetD (d : Dict) (key : String) (default : Value) : Value :=
  (dictGet d key).getD default

/-- Extract the string out of a string value; callers are guarded by
`isinstance(·, str)` validation, so the non-string branch is unreachable
where this is used. -/
def Value.asStr : Value → String
  | Value.vStr s => s
  | _ => ""

/-- Python truthiness of a string: the empty string is falsy. -/
def pyTruthyStr (s : String) : Bool :=
  !(s == "")

/-- Python truthiness of an optional dict (`if not request_body`):
`None` and the empty dict are falsy. -/
def pyTruthyBody : Option Dict → Bool
  | none => false
  | some d => !(d = ([] : Dict) : Bool)

/-- Python `str.startswith(pre)`, computed structurally on the
character lists. -/
def pyStartsWith (s pre : String) : Bool :=
  pre.data.isPrefixOf s.data

/-- ASCII model of Python `str.isdigit()`: non-empty and all characters
are decimal digits (computed structurally on the character list). -/
def pyIsDigit (s : String) : Bool :=
  !(s.data = ([] : List Char) : Bool) && s.data.all Char.isDigit

/-- The numeric value of a decimal digit string. -/
def digitsToNat (cs : List Char) : Nat :=
  cs.foldl (fun acc c => acc * 10 + (c.toNat - 48)) 0

def parseDigits (cs : List Char) : Option Nat :=
  if cs ≠ [] ∧ cs.all Char.isDigit then some (digitsToNat cs) else none

/-- Model of Python `int(·)` on the strings this app feeds it: an
optional sign followed by decimal digits (surrounding whitespace and
underscore separators are not modelled). -/
def pyParseInt (s : String) : Option Int :=
  match s.data with
  | [] => none
  | '-' :: rest => (parseDigits rest).map (fun n => -(n : Int))
  | '+' :: rest => (parseDigits rest).map (fun n => (n : Int))
  | cs => (parseDigits cs).map (fun n => (n : Int))

/-- An uncaught Python exception escaping a handler. -/
inductive PyErr where
  | indexError : PyErr
  | attributeError : PyErr
  | implicitNone : PyErr
  deriving DecidableEq, Repr

/-! ## helpers.py -/

/-- `helpers.validate_fields(field_names, request_data)`:
`[field for field in field_names if field not in request_data or
request_data[field] in [None, "", "null"]]` (with Python string quoting).
(`dictGet` returning `none` is exactly `field not in request_data`.) -/
def validate_fields (field_names : List String) (request_data : Dict) :
    List String :=
  field_names.filter (fun field =>
    match dictGet request_data field with
    | none => true
    | some v => v = Value.vNull || v = Value.vStr "" || v = Value.vStr "null")

/-- Behaviour of the external `phonenumbers` library (a black-box
collaborator): `parse(s, None)` either yields a parsed number or raises
`NumberParseException` (the `Except.error` case), and `is_valid_number`
judges a parsed number. -/
structure PhoneLib (α : Type) where
  parse : String → Except Unit α
  is_valid_number : α → Bool

/-- `helpers.validate_phone_number(phone_number)` on a string input:
`if phone_number and phone_number.startswith('+')` then parse and check
validity, catching `NumberParseException` as `False`; otherwise `False`. -/
def validate_phone_number {α : Type} (lib : PhoneLib α)
    (phone_number : String) : Bool :=
  if pyTruthyStr phone_number && pyStartsWith phone_number "+" then
    match lib.parse phone_number with
    | Except.ok parsed_number => lib.is_valid_number parsed_number
    | Except.error _ => false
  else
    false

/-- `validate_phone_number` applied to an arbitrary payload value, as at
its call site `validate_phone_number(request_data["phone_number"])`:
a falsy value (None, "", 0, False) short-circuits `if phone_number and ...`
to `False`; a truthy non-string raises `AttributeError` at
`.startswith` (not caught: only `NumberParseException` is). -/
def validate_phone_number_value {α : Type} (lib : PhoneLib α) :
    Value → Except PyErr Bool
  | Value.vNull => Except.ok false
  | Value.vStr s => Except.ok (validate_phone_number lib s)
  | Value.vInt n => if n = 0 then Except.ok false else Except.error PyErr.attributeError
  | Value.vBool b => if b then Except.error PyErr.attributeError else Except.ok false

/-! ## models.py -/

/-- `models.Experience` dataclass. -/
structure Experience where
  title : String
  company : String
  start_date : String
  end_date : String
  description : String
  logo : String
  id : Option Int := none
  deriving DecidableEq, Repr

/-- `models.Education` dataclass. -/
structure Education where
  course : String
  school : String
  start_date : String
  end_date : String
  grade : String
  logo : String
  id : Option Int := none
  deriving DecidableEq, Repr

/-- `models.Skill` dataclass. -/
structure Skill where
  name : String
  proficiency : String
  logo : String
  deriving DecidableEq, Repr

/-- `models.UserInformation` dataclass. -/
structure UserInformation where
  name : String
  email_address : String
  phone_number : String
  deriving DecidableEq, Repr

/-- The `user_information` slot of the store.  `reset_data()` fills it
with a list of `UserInformation` records, but the POST/PUT handler
assigns the raw request dict to it (`data["user_information"] =
request_data`), so both shapes occur. -/
inductive UserInfoSlot where
  | records (l : List UserInformation) : UserInfoSlot
  | raw (d : Dict) : UserInfoSlot
  deriving DecidableEq, Repr

/-- The module-level in-memory store `data`. -/
structure Store where
  experience : List Experience
  education : List Education
  skill : List Skill
  user_information : UserInfoSlot
  deriving DecidableEq, Repr

/-- `reset_data()`: the placeholder store contents. -/
def reset_data : Store where
  experience :=
    [Experience.mk "Software Developer" "A Cool Company" "October 2022"
      "Present" "Writing Python Code" "example-logo.png" none]
  education :=
    [Education.mk "Computer Science" "University of Tech" "September 2019"
      "July 2022" "80%" "example-logo.png" none]
  skill := [Skill.mk "Python" "1-2 Years" "example-logo.png"]
  user_information := UserInfoSlot.records
    [UserInformation.mk "Joe Smith" "example@gmail.com" "+11234567890"]

/-! ## app.py: request/response plumbing -/

/-- A JSON leaf value inside a response object. -/
inductive JVal where
  | null : JVal
  | str (s : String) : JVal
  | int (n : Int) : JVal
  | bool (b : Bool) : JVal
  | strList (l : List String) : JVal
  deriving DecidableEq, Repr

/-- A JSON document as produced by `jsonify`: every response body of this
app is either a flat object or an array of flat objects. -/
inductive Json where
  | obj (fields : List (String × JVal)) : Json
  | arrObj (objs : List (List (String × JVal))) : Json
  deriving DecidableEq, Repr

/-- An HTTP response: JSON body and status code. -/
structure Response where
  body : Json
  status : Nat
  deriving DecidableEq, Repr

/-- HTTP methods used by the routes. -/
inductive Method where
  | GET : Method
  | POST : Method
  | PUT : Method
  | DELETE : Method
  deriving DecidableEq, Repr

/-- An uploaded file from `request.files`.  Werkzeug `FileStorage` is
truthy exactly when its filename is non-empty. -/
structure UploadedFile where
  filename : String
  deriving DecidableEq, Repr

/-- The `request.files` mapping. -/
abbrev Files := List (String × UploadedFile)

def filesGet (files : Files) (key : String) : Option UploadedFile :=
  (files.find? (fun p => p.1 = key)).map Prod.snd

/-- `UPLOAD_FOLDER`, `DEFAULT_LOGO`, `ALLOWED_EXTENSIONS` constants. -/
def DEFAULT_LOGO : String := "default.jpg"

def ALLOWED_EXTENSIONS : List String := ["png", "jpg", "jpeg", "gif"]

/-- `app.allowed_file(filename)`:
`"." in filename and filename.rsplit(".", 1)[1].lower() in ALLOWED_EXTENSIONS`.
`rsplit(".", 1)[1]` is the text after the last dot. -/
def allowed_file (filename : String) : Bool :=
  filename.contains '.' &&
    ALLOWED_EXTENSIONS.contains (((filename.splitOn ".").getLastD "").toLower)

/-- Outcome of the logo-file branch shared by the POST handlers: the
default logo unless there is a truthy uploaded `logo` file with an
allowed extension, in which case its name as sanitized by the werkzeug
function `secure_filename` (a black-box collaborator, passed in as `securer`). -/
def logoOrDefault (securer : String → String) (files : Files)
    (default : String) : String :=
  match filesGet files "logo" with
  | some logo_file =>
      if pyTruthyStr logo_file.filename && allowed_file logo_file.filename then
        securer logo_file.filename
      else default
  | none => default

/-- `app.save_logo_file(logo_file)` used by the skill POST handler:
same logic as the inline branch, over `request.files.get("logo")`. -/
def save_logo_file (securer : String → String)
    (logo_file : Option UploadedFile) : String :=
  match logo_file with
  | some f =>
      if pyTruthyStr f.filename && allowed_file f.filename then
        securer f.filename
      else DEFAULT_LOGO
  | none => DEFAULT_LOGO

/-- `app.handle_missing_invalid_fields(request_body, required_fields)`:
missing fields, and fields present but not `isinstance(·, str)`
(all required field types in this app are `str`). -/
def handle_missing_invalid_fields (request_body : Dict)
    (required_fields : List String) : List String × List String :=
  ( required_fields.filter (fun field => !(dictContains request_body field)),
    required_fields.filter (fun field =>
      dictContains request_body field &&
        match dictGet request_body field with
        | some (Value.vStr _) => false
        | _ => true) )

def validationFailed (missing_fields invalid_fields : List String) : Json :=
  Json.obj [("error", JVal.str "Validation failed"),
    ("missing_fields", JVal.strList missing_fields),
    ("invalid_fields", JVal.strList invalid_fields)]

/-! ## app.py: jsonify of records -/

/-- A request-payload value as serialized back by `jsonify`. -/
def JVal.ofValue : Value → JVal
  | Value.vNull => JVal.null
  | Value.vStr s => JVal.str s
  | Value.vInt n => JVal.int n
  | Value.vBool b => JVal.bool b

def jsonOptId : Option Int → JVal
  | some n => JVal.int n
  | none => JVal.null

/-- `jsonify` of an `Experience` dataclass (its `__dict__`, in field
declaration order). -/
def experienceFields (e : Experience) : List (String × JVal) :=
  [("title", JVal.str e.title), ("company", JVal.str e.company),
   ("start_date", JVal.str e.start_date), ("end_date", JVal.str e.end_date),
   ("description", JVal.str e.description), ("logo", JVal.str e.logo),
   ("id", jsonOptId e.id)]

def educationFields (e : Education) : List (String × JVal) :=
  [("course", JVal.str e.course), ("school", JVal.str e.school),
   ("start_date", JVal.str e.start_date), ("end_date", JVal.str e.end_date),
   ("grade", JVal.str e.grade), ("logo", JVal.str e.logo),
   ("id", jsonOptId e.id)]

def skillFields (sk : Skill) : List (String × JVal) :=
  [("name", JVal.str sk.name), ("proficiency", JVal.str sk.proficiency),
   ("logo", JVal.str sk.logo)]

def userInformationFields (u : UserInformation) : List (String × JVal) :=
  [("name", JVal.str u.name), ("email_address", JVal.str u.email_address),
   ("phone_number", JVal.str u.phone_number)]

def jsonUserInfoSlot : UserInfoSlot → Json
  | UserInfoSlot.records l => Json.arrObj (l.map userInformationFields)
  | UserInfoSlot.raw d => Json.obj (d.map (fun p => (p.1, JVal.ofValue p.2)))

def errorResponse (msg : String) (status : Nat) : Response :=
  Response.mk (Json.obj [("error", JVal.str msg)]) status

/-- `request_body[field]` for a field that passed string validation. -/
def dictStr (d : Dict) (key : String) : String :=
  ((dictGet d key).getD Value.vNull).asStr

/-! ## app.py: experience handlers -/

/-- The POST branch of `app.experience()`: validate the five required
string fields, resolve the logo upload, append the new record, and
answer 201 with the new index as `id`. -/
def experiencePost (securer : String → String) (request_body : Option Dict)
    (files : Files) (s : Store) : Response × Store :=
  if !(pyTruthyBody request_body) then
    (errorResponse "Request must be JSON or include form data" 400, s)
  else
    let rb := request_body.getD []
    let required_fields := ["title", "company", "start_date", "end_date", "description"]
    let mi := handle_missing_invalid_fields rb required_fields
    if !(mi.1 = []) || !(mi.2 = []) then
      (Response.mk (validationFailed mi.1 mi.2) 400, s)
    else
      let logo_filename := logoOrDefault securer files DEFAULT_LOGO
      let new_experience := Experience.mk (dictStr rb "title") (dictStr rb "company")
        (dictStr rb "start_date") (dictStr rb "end_date") (dictStr rb "description")
        logo_filename none
      let experience' := s.experience ++ [new_experience]
      let new_experience_id := experience'.length - 1
      (Response.mk (Json.obj [("message", JVal.str "New experience created"),
          ("id", JVal.int new_experience_id)]) 201,
        { s with experience := experience' })

/-- The GET branch of `app.experience()`. -/
def experienceGetAll (s : Store) : Response × Store :=
  (Response.mk (Json.arrObj (s.experience.map experienceFields)) 200, s)

/-- `app.experience_by_index(index)`, registered for GET and PUT on
`/resume/experience/<int:index>`.  The body never consults
`request.method` or the request body, so PUT behaves exactly like GET:
in bounds it answers the record with the default 200 status (the first
conjunct of the source check, `0 <= len(data["experience"])`, always
holds and is dropped here); otherwise 404. -/
def experience_by_index (_method : Method) (_request_body : Option Dict)
    (index : Nat) (s : Store) : Response × Store :=
  if h : index < s.experience.length then
    (Response.mk (Json.obj (experienceFields (s.experience.get ⟨index, h⟩))) 200, s)
  else
    (errorResponse "Experience not found" 404, s)

/-- The methods registered on the `/resume/experience/<int:index>` route
(line 217 of app.py): GET and PUT only — no DELETE, so Flask answers
405 Method Not Allowed to a DELETE on this route. -/
def experience_by_index_methods : List Method := [Method.GET, Method.PUT]

/-! ## app.py: education handlers -/

/-- The POST branch of `app.education()`. -/
def educationPost (securer : String → String) (request_body : Option Dict)
    (files : Files) (s : Store) : Response × Store :=
  if !(pyTruthyBody request_body) then
    (errorResponse "Request must be JSON or include form data" 400, s)
  else
    let rb := request_body.getD []
    let required_fields := ["course", "school", "start_date", "end_date", "grade"]
    let mi := handle_missing_invalid_fields rb required_fields
    if !(mi.1 = []) || !(mi.2 = []) then
      (Response.mk (validationFailed mi.1 mi.2) 400, s)
    else
      let logo_filename := logoOrDefault securer files DEFAULT_LOGO
      let new_education := Education.mk (dictStr rb "course") (dictStr rb "school")
        (dictStr rb "start_date") (dictStr rb "end_date") (dictStr rb "grade")
        logo_filename none
      let education' := s.education ++ [new_education]
      let new_education_id := education'.length - 1
      (Response.mk (Json.obj [("message", JVal.str "New education created"),
          ("id", JVal.int new_education_id)]) 201,
        { s with education := education' })

/-- `app.education_by_index(index)` for GET and PUT.  The PUT branch has
no bounds check before `data["education"][index].logo`; an out-of-range
index that survives field validation raises an uncaught `IndexError`
(embedded as `Except.error PyErr.indexError`). -/
def education_by_index (securer : String → String) (method : Method)
    (request_body : Option Dict) (files : Files) (index : Nat) (s : Store) :
    Except PyErr (Response × Store) :=
  match method with
  | Method.GET =>
      if h : index < s.education.length then
        Except.ok (Response.mk
          (Json.obj (educationFields (s.education.get ⟨index, h⟩))) 200, s)
      else
        Except.ok (errorResponse "Education entry not found" 404, s)
  | Method.PUT =>
      if !(pyTruthyBody request_body) then
        Except.ok (errorResponse "Request must be JSON or include form data" 400, s)
      else
        let rb := request_body.getD []
        let required_fields := ["course", "school", "start_date", "end_date", "grade"]
        let mi := handle_missing_invalid_fields rb required_fields
        if !(mi.1 = []) || !(mi.2 = []) then
          Except.ok (Response.mk (validationFailed mi.1 mi.2) 400, s)
        else
          if h : index < s.education.length then
            let old := s.education.get ⟨index, h⟩
            let logo_filename := logoOrDefault securer files old.logo
            let updated := Education.mk (dictStr rb "course") (dictStr rb "school")
              (dictStr rb "start_date") (dictStr rb "end_date") (dictStr rb "grade")
              logo_filename old.id
            Except.ok (Response.mk (Json.obj [("message", JVal.str "Education updated"),
                ("id", JVal.int index)]) 200,
              { s with education := s.education.set index updated })
          else
            Except.error PyErr.indexError
  | _ => Except.ok (Response.mk (Json.obj []) 400, s)

/-- `app.delete_education(index)` for DELETE on
`/resume/education/<int:index>` (the Flask `int` converter makes
`index` a natural number, so the check `0 <= index` of the source always holds). -/
def delete_education (index : Nat) (s : Store) : Response × Store :=
  if index < s.education.length then
    (Response.mk (Json.obj
        [("message", JVal.str "Education entry successfully deleted")]) 200,
      { s with education := s.education.eraseIdx index })
  else
    (errorResponse "Education entry not found" 404, s)

/-! ## app.py: skill handlers -/

/-- `app.handle_get_skill()`: list all skills, or fetch one by the `id`
query parameter (400 on a `ValueError` from `int(skill_id)`). -/
def handle_get_skill (skill_id? : Option String) (s : Store) : Response × Store :=
  match skill_id? with
  | none => (Response.mk (Json.arrObj (s.skill.map skillFields)) 200, s)
  | some sid =>
      match pyParseInt sid with
      | none => (errorResponse "Invalid request" 400, s)
      | some n =>
          if h : 0 ≤ n ∧ n.toNat < s.skill.length then
            (Response.mk (Json.obj (skillFields (s.skill.get ⟨n.toNat, h.2⟩))) 200, s)
          else
            (errorResponse "Skill not found" 404, s)

/-- `app.handle_post_skill()`. -/
def handle_post_skill (securer : String → String) (request_body : Option Dict)
    (files : Files) (s : Store) : Response × Store :=
  if !(pyTruthyBody request_body) then
    (errorResponse "Request must be JSON or include form data" 400, s)
  else
    let rb := request_body.getD []
    let mi := handle_missing_invalid_fields rb ["name", "proficiency"]
    if !(mi.1 = []) || !(mi.2 = []) then
      (Response.mk (validationFailed mi.1 mi.2) 400, s)
    else
      let logo_filename := save_logo_file securer (filesGet files "logo")
      let new_skill := Skill.mk (dictStr rb "name") (dictStr rb "proficiency") logo_filename
      let skill' := s.skill ++ [new_skill]
      (Response.mk (Json.obj [("message", JVal.str "New skill created"),
          ("id", JVal.int (skill'.length - 1))]) 201,
        { s with skill := skill' })

/-- `request_body.get(key, old)` in the skill PUT merge; a present value
is assigned as-is in Python (fields here are strings, so `asStr`
collapses the non-string case, unreachable for well-typed payloads). -/
def mergeField (rb : Dict) (key : String) (old : String) : String :=
  match dictGet rb key with
  | some v => v.asStr
  | none => old

/-- `app.handle_put_skill()`: partial merge of `name` / `proficiency` /
`logo` into the skill addressed by the digit-string `id` query
parameter; no required-field validation.  After `skill_id.isdigit()`
passes, `int(skill_id)` is the numeric value of the digits. -/
def handle_put_skill (request_body : Option Dict) (skill_id? : Option String)
    (s : Store) : Response × Store :=
  match skill_id? with
  | none => (errorResponse "Invalid skill ID" 400, s)
  | some sid =>
      if !(pyTruthyStr sid) || !(pyIsDigit sid) then
        (errorResponse "Invalid skill ID" 400, s)
      else
        let skill_id := digitsToNat sid.data
        if h : skill_id < s.skill.length then
          if !(pyTruthyBody request_body) then
            (errorResponse "Request must be JSON" 400, s)
          else
            let rb := request_body.getD []
            let existing_skill := s.skill.get ⟨skill_id, h⟩
            let updated := Skill.mk (mergeField rb "name" existing_skill.name)
              (mergeField rb "proficiency" existing_skill.proficiency)
              (mergeField rb "logo" existing_skill.logo)
            (Response.mk (Json.obj (skillFields updated)) 200,
              { s with skill := s.skill.set skill_id updated })
        else
          (errorResponse "Skill not found" 404, s)

/-- `app.delete_skill(skill_index)` for DELETE on
`/resume/skill/<int:skill_index>`. -/
def delete_skill (skill_index : Nat) (s : Store) : Response × Store :=
  if skill_index < s.skill.length then
    (Response.mk (Json.obj [("message", JVal.str "Skill successfully deleted")]) 200,
      { s with skill := s.skill.eraseIdx skill_index })
  else
    (errorResponse "Skill not found" 404, s)

/-! ## app.py: user_information handler -/

/-- `app.user_information()` for GET, POST and PUT.  On a valid POST/PUT
the raw request dict is assigned to the store slot
(`data["user_information"] = request_data`) and echoed with 201.
The function body has no return for other methods (implicit `None`). -/
def user_information {α : Type} (lib : PhoneLib α) (method : Method)
    (request_data : Option Dict) (s : Store) : Except PyErr (Response × Store) :=
  match method with
  | Method.GET => Except.ok (Response.mk (jsonUserInfoSlot s.user_information) 200, s)
  | Method.POST | Method.PUT =>
      if !(pyTruthyBody request_data) then
        Except.ok (errorResponse "Request must be JSON" 400, s)
      else
        let rd := request_data.getD []
        let error := validate_fields ["name", "email_address", "phone_number"] rd
        if !(error = []) then
          Except.ok (Response.mk (Json.obj [("error",
            JVal.str (String.intercalate ", " error ++ " parameter(s) is required"))]) 400, s)
        else
          match validate_phone_number_value lib ((dictGet rd "phone_number").getD Value.vNull) with
          | Except.error e => Except.error e
          | Except.ok is_valid_phone_number =>
              if !is_valid_phone_number then
                Except.ok (errorResponse "Invalid phone number" 400, s)
              else
                Except.ok (Response.mk
                  (Json.obj (rd.map (fun p => (p.1, JVal.ofValue p.2)))) 201,
                  { s with user_information := UserInfoSlot.raw rd })
  | Method.DELETE => Except.error PyErr.implicitNone

/-! ## Spellcheck endpoint

Modelled from the spec: the `POST /resume/spellcheck` handler is code of
this repository that is absent from `src/app.py`; only its test
(`test_pytest.py::test_spellcheck`) is present.  The definitions below
follow spec sections 4.4 and 6. -/

/-- Modelled from the spec: the dictionary-backed spell-checking
collaborator, giving candidate corrections for a text. -/
structure SpellChecker where
  candidates : String → List String

/-- Modelled from the spec: the spellcheck request payload — optional
`experience`, `education`, `skill` arrays of partial field-maps
(an omitted array is the empty list). -/
structure SpellcheckRequest where
  experience : List Dict
  education : List Dict
  skill : List Dict

/-- Modelled from the spec: a populated text field — the key present
with a non-empty string value. -/
def populatedField (d : Dict) (key : String) : Option String :=
  match dictGet d key with
  | some (Value.vStr t) => if t = "" then none else some t
  | _ => none

/-- Modelled from the spec: one result entry
`{before: original_text, after: list_of_candidate_corrections}`. -/
def spellcheckEntry (checker : SpellChecker) (text : String) :
    List (String × JVal) :=
  [("before", JVal.str text), ("after", JVal.strList (checker.candidates text))]

/-- Modelled from the spec: the entries contributed by one field-map,
checking its recognized keys in the given order. -/
def spellcheckDictEntries (checker : SpellChecker) (keys : List String)
    (d : Dict) : List (List (String × JVal)) :=
  keys.flatMap (fun key =>
    match populatedField d key with
    | some t => [spellcheckEntry checker t]
    | none => [])

/-- Modelled from the spec: the `POST /resume/spellcheck` handler —
experience entries (title then description per map), then education
(course), then skill (name). -/
def spellcheck (checker : SpellChecker) (req : SpellcheckRequest) : Response :=
  Response.mk (Json.arrObj
    (req.experience.flatMap (spellcheckDictEntries checker ["title", "description"]) ++
     req.education.flatMap (spellcheckDictEntries checker ["course"]) ++
     req.skill.flatMap (spellcheckDictEntries checker ["name"]))) 200

/-- The populated recognized text fields of a spellcheck payload, in the
order the claim prescribes: input array order, experience before
education before skill, title before description within an experience. -/
def recognizedTexts (req : SpellcheckRequest) : List String :=
  req.experience.flatMap (fun d =>
      (populatedField d "title").toList ++ (populatedField d "description").toList) ++
    req.education.flatMap (fun d => (populatedField d "course").toList) ++
    req.skill.flatMap (fun d => (populatedField d "name").toList)

/-! ## Claim-side predicates and concrete inputs -/

/-- The description in the claim of a field `validate_fields` must report:
absent from the payload, or present with value null / empty string /
the literal string "null". -/
def missingOrEmpty (request_data : Dict) (field : String) : Bool :=
  match dictGet request_data field with
  | none => true
  | some v => decide (v = Value.vNull ∨ v = Value.vStr "" ∨ v = Value.vStr "null")

/-- A concrete `phonenumbers` behaviour: parsing succeeds exactly on
"+14155552671" and every parsed number is valid. -/
def unitPhoneLib : PhoneLib Unit where
  parse := fun s => if s = "+14155552671" then Except.ok () else Except.error ()
  is_valid_number := fun _ => true

/-- A complete, well-typed experience payload whose values differ from
the seeded record. -/
def expUpdateBody : Dict :=
  [("title", Value.vStr "Updated Title"), ("company", Value.vStr "New Co"),
   ("start_date", Value.vStr "Jan 2024"), ("end_date", Value.vStr "Present"),
   ("description", Value.vStr "New description")]

/-- A complete, well-typed education payload. -/
def eduUpdateBody : Dict :=
  [("course", Value.vStr "Mathematics"), ("school", Value.vStr "MIT"),
   ("start_date", Value.vStr "2020"), ("end_date", Value.vStr "2024"),
   ("grade", Value.vStr "A")]

/-- A user-information payload whose phone number lacks the "+". -/
def badPhoneBody : Dict :=
  [("name", Value.vStr "John Doe"), ("email_address", Value.vStr "john@example.com"),
   ("phone_number", Value.vStr "123456")]

/-- A skill creation payload. -/
def skillCreateBody : Dict :=
  [("name", Value.vStr "JavaScript"), ("proficiency", Value.vStr "2-4 years")]

/-- A partial skill update payload: `name` and `logo` absent. -/
def skillMergeBody : Dict :=
  [("proficiency", Value.vStr "Expert")]

/-- The payload of the `validate_fields` example in the spec. -/
def examplePayload : Dict :=
  [("name", Value.vStr "John Doe"), ("email_address", Value.vStr "john@example.com")]

/-! ## Helper lemmas -/

theorem dictContains_of_dictGet {d : Dict} {k : String} {v : Value}
    (h : dictGet d k = some v) : dictContains d k = true := by
  unfold dictGet at h
  unfold dictContains
  cases hf : d.find? (fun p => p.1 = k) with
  | none => rw [hf] at h; simp at h
  | some p =>
      have hp := @List.find?_some (String × Value) (fun q => decide (q.1 = k)) p d hf
      exact List.any_eq_true.mpr ⟨p, List.mem_of_find?_eq_some hf, hp⟩

theorem dictGet_eq_none_of_not_contains {d : Dict} {k : String}
    (h : dictContains d k = false) : dictGet d k = none := by
  unfold dictContains at h
  unfold dictGet
  cases hf : d.find? (fun p => p.1 = k) with
  | none => rfl
  | some p =>
      exfalso
      have hp := @List.find?_some (String × Value) (fun q => decide (q.1 = k)) p d hf
      have hany : d.any (fun p : String × Value => decide (p.1 = k)) = true :=
        List.any_eq_true.mpr ⟨p, List.mem_of_find?_eq_some hf, hp⟩
      rw [h] at hany
      cases hany

theorem ne_nil_of_dictGet {d : Dict} {k : String} {v : Value}
    (h : dictGet d k = some v) : d ≠ [] := by
  intro he
  subst he
  simp [dictGet] at h

theorem pyTruthyBody_of_ne_nil {d : Dict} (h : d ≠ []) :
    pyTruthyBody (some d) = true := by
  simp [pyTruthyBody, h]

theorem get_concat_self {β : Type} (l : List β) (x : β)
    (h : l.length < (l ++ [x]).length) : (l ++ [x]).get ⟨l.length, h⟩ = x := by
  simp [List.get_eq_getElem]

/-! ## Claims -/

/-- C7: `validate_phone_number` returns true iff the input is a
non-empty string beginning with "+" whose parse under the
`phonenumbers` collaborator succeeds with a globally valid number; any
parse failure or non-"+" input yields false.  In particular
"+14155552671" validates whenever the collaborator accepts it, and
"123456" never does. -/
theorem validate_phone_number_spec {α : Type} (lib : PhoneLib α) :
    (∀ s : String, validate_phone_number lib s = true ↔
      s ≠ "" ∧ pyStartsWith s "+" = true ∧
        ∃ parsed, lib.parse s = Except.ok parsed ∧
          lib.is_valid_number parsed = true) ∧
    ((∃ parsed, lib.parse "+14155552671" = Except.ok parsed ∧
        lib.is_valid_number parsed = true) →
      validate_phone_number lib "+14155552671" = true) ∧
    validate_phone_number lib "123456" = false := by
  have main : ∀ s : String, validate_phone_number lib s = true ↔
      s ≠ "" ∧ pyStartsWith s "+" = true ∧
        ∃ parsed, lib.parse s = Except.ok parsed ∧
          lib.is_valid_number parsed = true := by
    intro s
    unfold validate_phone_number
    by_cases hcond : (pyTruthyStr s && pyStartsWith s "+") = true
    · rw [if_pos hcond]
      simp only [pyTruthyStr, Bool.and_eq_true, Bool.not_eq_true', beq_eq_false_iff_ne]
        at hcond
      cases hparse : lib.parse s with
      | ok parsed =>
          constructor
          · intro hv
            exact ⟨hcond.1, hcond.2, parsed, rfl, hv⟩
          · rintro ⟨-, -, parsed', hp', hv'⟩
            cases hp'
            exact hv'
      | error e =>
          constructor
          · intro hv
            simp at hv
          · rintro ⟨-, -, parsed', hp', -⟩
            cases hp'
    · rw [if_neg hcond]
      simp only [pyTruthyStr, Bool.and_eq_true, Bool.not_eq_true', beq_eq_false_iff_ne,
        not_and] at hcond
      constructor
      · intro hv
        simp at hv
      · rintro ⟨hs, hplus, -⟩
        exact absurd hplus (by simpa using hcond hs)
  refine ⟨main, ?_, ?_⟩
  · intro ⟨parsed, hp, hv⟩
    exact (main "+14155552671").mpr ⟨by decide, by decide, parsed, hp, hv⟩
  · by_contra hv
    rw [Bool.not_eq_false] at hv
    obtain ⟨-, hplus, -⟩ := (main "123456").mp hv
    exact absurd hplus (by decide)

/-- C7 witness: a concrete collaborator accepting "+14155552671". -/
theorem validate_phone_number_spec_witness :
    validate_phone_number unitPhoneLib "+14155552671" = true ∧
    validate_phone_number unitPhoneLib "123456" = false :=
  ⟨(validate_phone_number_spec unitPhoneLib).2.1 ⟨(), rfl, rfl⟩,
   (validate_phone_number_spec unitPhoneLib).2.2⟩

/-- C8: `validate_fields` returns exactly the field names, in the given
order, that are absent from the payload or mapped to null, the empty
string, or the literal string "null"; in particular on the example of the spec it returns `["phone_number"]`. -/
theorem validate_fields_spec :
    (∀ (field_names : List String) (request_data : Dict),
      validate_fields field_names request_data =
        field_names.filter (fun field => missingOrEmpty request_data field) ∧
      (validate_fields field_names request_data).Sublist field_names ∧
      ∀ field, field ∈ validate_fields field_names request_data ↔
        field ∈ field_names ∧ missingOrEmpty request_data field = true) ∧
    validate_fields ["name", "email_address", "phone_number"] examplePayload =
      ["phone_number"] := by
  constructor
  · intro field_names request_data
    have hfilter : validate_fields field_names request_data =
        field_names.filter (fun field => missingOrEmpty request_data field) := by
      unfold validate_fields missingOrEmpty
      apply List.filter_congr
      intro field _
      cases h : dictGet request_data field with
      | none => rfl
      | some v => simp [Bool.or_assoc]
    refine ⟨hfilter, ?_, ?_⟩
    · rw [hfilter]
      exact List.filter_sublist field_names
    · intro field
      rw [hfilter]
      simp [List.mem_filter]
  · decide

/-- C4 (code bug evidence): the route `/resume/experience/<int:index>`
registers no DELETE method, although `test_pytest.py` expects
`DELETE /resume/experience/{index}` to delete and answer 200. -/
theorem experience_delete_route_missing :
    Method.DELETE ∉ experience_by_index_methods := by decide

/-- C2: deleting an in-bounds index from the education or skill
collection answers 200, removes exactly the record at that position
(earlier records unchanged, later ones shifted down), and shrinks the
collection by one; an index at or past the length answers 404 and
leaves the store unchanged. -/
theorem delete_by_index_spec (i : Nat) (s : Store) :
    (i < s.education.length →
      delete_education i s =
        (Response.mk (Json.obj
          [("message", JVal.str "Education entry successfully deleted")]) 200,
          { s with education := s.education.take i ++ s.education.drop (i + 1) }) ∧
      (delete_education i s).2.education.length = s.education.length - 1) ∧
    (s.education.length ≤ i →
      delete_education i s = (errorResponse "Education entry not found" 404, s)) ∧
    (i < s.skill.length →
      delete_skill i s =
        (Response.mk (Json.obj
          [("message", JVal.str "Skill successfully deleted")]) 200,
          { s with skill := s.skill.take i ++ s.skill.drop (i + 1) }) ∧
      (delete_skill i s).2.skill.length = s.skill.length - 1) ∧
    (s.skill.length ≤ i →
      delete_skill i s = (errorResponse "Skill not found" 404, s)) := by
  refine ⟨fun h => ?_, fun h => ?_, fun h => ?_, fun h => ?_⟩
  · unfold delete_education
    rw [if_pos h]
    exact ⟨by rw [List.eraseIdx_eq_take_drop_succ],
      by simpa using List.length_eraseIdx_of_lt h⟩
  · unfold delete_education
    rw [if_neg (Nat.not_lt.mpr h)]
  · unfold delete_skill
    rw [if_pos h]
    exact ⟨by rw [List.eraseIdx_eq_take_drop_succ],
      by simpa using List.length_eraseIdx_of_lt h⟩
  · unfold delete_skill
    rw [if_neg (Nat.not_lt.mpr h)]

/-- C2 witness: delete index 0 of the seeded single-record collections,
and index 5 out of bounds. -/
theorem delete_by_index_spec_witness :
    (delete_education 0 reset_data =
      (Response.mk (Json.obj
        [("message", JVal.str "Education entry successfully deleted")]) 200,
        { reset_data with education :=
            reset_data.education.take 0 ++ reset_data.education.drop 1 }) ∧
      (delete_education 0 reset_data).2.education.length =
        reset_data.education.length - 1) ∧
    delete_skill 5 reset_data = (errorResponse "Skill not found" 404, reset_data) :=
  ⟨(delete_by_index_spec 0 reset_data).1 (by decide),
   (delete_by_index_spec 5 reset_data).2.2.2 (by decide)⟩

/-- C3 counterexample: a PUT to `/resume/experience/0` with a complete,
well-typed body whose title differs from the stored one leaves the
store unchanged — the record is not replaced with the submitted values,
and the response is the record itself, not a message-and-id payload. -/
theorem experience_put_claim_counterexample :
    (experience_by_index Method.PUT (some expUpdateBody) 0 reset_data).2 =
      reset_data ∧
    dictGet expUpdateBody "title" = some (Value.vStr "Updated Title") ∧
    (experience_by_index Method.PUT (some expUpdateBody) 0
        reset_data).2.experience.map Experience.title = ["Software Developer"] ∧
    (experience_by_index Method.PUT (some expUpdateBody) 0 reset_data).1 =
      Response.mk (Json.obj (experienceFields
        (Experience.mk "Software Developer" "A Cool Company" "October 2022"
          "Present" "Writing Python Code" "example-logo.png" none))) 200 := by
  refine ⟨rfl, rfl, rfl, rfl⟩

/-- C3 amended: for an in-bounds index, PUT `/resume/experience/{i}`
performs no validation and no mutation; it answers 200 with the record
at that index, exactly as GET does, and an out-of-bounds index answers
404 with the store unchanged. -/
theorem experience_put_acts_as_get (m : Method) (body : Option Dict)
    (i : Nat) (s : Store) :
    (∀ h : i < s.experience.length,
      experience_by_index m body i s =
        (Response.mk (Json.obj (experienceFields (s.experience.get ⟨i, h⟩))) 200, s)) ∧
    (s.experience.length ≤ i →
      experience_by_index m body i s = (errorResponse "Experience not found" 404, s)) ∧
    experience_by_index m body i s = experience_by_index Method.GET none i s := by
  unfold experience_by_index
  exact ⟨fun h => by rw [dif_pos h], fun h => by rw [dif_neg (Nat.not_lt.mpr h)], rfl⟩

/-- C3 amended witness: PUT at index 0 of the seeded store. -/
theorem experience_put_acts_as_get_witness :
    experience_by_index Method.PUT (some expUpdateBody) 0 reset_data =
      (Response.mk (Json.obj (experienceFields
        (reset_data.experience.get ⟨0, by decide⟩))) 200, reset_data) :=
  (experience_put_acts_as_get Method.PUT (some expUpdateBody) 0 reset_data).1
    (by decide)

/-- C5 (code bug evidence): a PUT to `/resume/education/1` on a
one-record education collection with a complete, well-typed body does
not answer 404 — the missing bounds check makes
`data["education"][index].logo` raise an uncaught `IndexError`. -/
theorem education_put_out_of_range_raises :
    education_by_index id Method.PUT (some eduUpdateBody) [] 1 reset_data =
      Except.error PyErr.indexError ∧
    reset_data.education.length = 1 :=
  ⟨rfl, rfl⟩

/-- C6: a POST or PUT to `/resume/user_information` whose payload maps
`phone_number` to a string failing `validate_phone_number` answers 400
with an `error` body and leaves the store — in particular the
user-information singleton — exactly as it was. -/
theorem user_information_invalid_phone {α : Type} (lib : PhoneLib α)
    (m : Method) (rd : Dict) (s : Store) (p : String)
    (hm : m = Method.POST ∨ m = Method.PUT)
    (hp : dictGet rd "phone_number" = some (Value.vStr p))
    (hinvalid : validate_phone_number lib p = false) :
    ∃ msg : String,
      user_information lib m (some rd) s =
        Except.ok (Response.mk (Json.obj [("error", JVal.str msg)]) 400, s) := by
  have htruthy : pyTruthyBody (some rd) = true :=
    pyTruthyBody_of_ne_nil (ne_nil_of_dictGet hp)
  rcases hm with rfl | rfl <;>
  · by_cases herr : validate_fields ["name", "email_address", "phone_number"] rd = []
    · refine ⟨"Invalid phone number", ?_⟩
      simp only [user_information, htruthy, Bool.not_true, Bool.false_eq_true,
        if_false, Option.getD_some, herr, hp, validate_phone_number_value, hinvalid]
      rfl
    · refine ⟨String.intercalate ", "
        (validate_fields ["name", "email_address", "phone_number"] rd) ++
          " parameter(s) is required", ?_⟩
      simp only [user_information, htruthy, Bool.not_true, Bool.false_eq_true,
        if_false, Option.getD_some]
      rw [if_pos (by simpa using herr)]

/-- C6 witness: POSTing a payload with phone number "123456" against
the seeded store. -/
theorem user_information_invalid_phone_witness :
    ∃ msg : String,
      user_information unitPhoneLib Method.POST (some badPhoneBody) reset_data =
        Except.ok (Response.mk (Json.obj [("error", JVal.str msg)]) 400,
          reset_data) :=
  user_information_invalid_phone unitPhoneLib Method.POST badPhoneBody reset_data
    "123456" (Or.inl rfl) rfl rfl

/-- C10: a PUT to `/resume/skill?id=i` with an in-bounds digit id and a
non-empty body merges the submitted fields into the skill at position
`i` without required-field validation — absent fields keep their
previous values — touches no other skill and no other collection, and
answers 200 with the updated record. -/
theorem handle_put_skill_spec (body : Dict) (qid : String) (i : Nat) (s : Store)
    (hq : pyIsDigit qid = true) (hqn : digitsToNat qid.data = i)
    (hb : body ≠ []) (hi : i < s.skill.length) :
    handle_put_skill (some body) (some qid) s =
      (Response.mk (Json.obj (skillFields (Skill.mk
          (mergeField body "name" (s.skill.get ⟨i, hi⟩).name)
          (mergeField body "proficiency" (s.skill.get ⟨i, hi⟩).proficiency)
          (mergeField body "logo" (s.skill.get ⟨i, hi⟩).logo)))) 200,
        { s with skill := s.skill.set i (Skill.mk
          (mergeField body "name" (s.skill.get ⟨i, hi⟩).name)
          (mergeField body "proficiency" (s.skill.get ⟨i, hi⟩).proficiency)
          (mergeField body "logo" (s.skill.get ⟨i, hi⟩).logo)) }) ∧
    (dictContains body "name" = false →
      mergeField body "name" (s.skill.get ⟨i, hi⟩).name =
        (s.skill.get ⟨i, hi⟩).name) ∧
    (dictContains body "proficiency" = false →
      mergeField body "proficiency" (s.skill.get ⟨i, hi⟩).proficiency =
        (s.skill.get ⟨i, hi⟩).proficiency) ∧
    (dictContains body "logo" = false →
      mergeField body "logo" (s.skill.get ⟨i, hi⟩).logo =
        (s.skill.get ⟨i, hi⟩).logo) ∧
    (handle_put_skill (some body) (some qid) s).2.experience = s.experience ∧
    (handle_put_skill (some body) (some qid) s).2.education = s.education ∧
    (handle_put_skill (some body) (some qid) s).2.user_information =
      s.user_information ∧
    (handle_put_skill (some body) (some qid) s).2.skill.length = s.skill.length ∧
    ∀ j, j ≠ i →
      (handle_put_skill (some body) (some qid) s).2.skill[j]? = s.skill[j]? := by
  have hqdata : qid.data ≠ [] := by
    intro h
    rw [pyIsDigit] at hq
    simp [h] at hq
  have hqne : qid ≠ "" := fun h => hqdata (by subst h; rfl)
  have hqs : pyTruthyStr qid = true := by
    unfold pyTruthyStr
    rw [show (qid == "") = false from beq_eq_false_iff_ne.mpr hqne]
    rfl
  have hbody : pyTruthyBody (some body) = true := pyTruthyBody_of_ne_nil hb
  have hmain : handle_put_skill (some body) (some qid) s =
      (Response.mk (Json.obj (skillFields (Skill.mk
          (mergeField body "name" (s.skill.get ⟨i, hi⟩).name)
          (mergeField body "proficiency" (s.skill.get ⟨i, hi⟩).proficiency)
          (mergeField body "logo" (s.skill.get ⟨i, hi⟩).logo)))) 200,
        { s with skill := s.skill.set i (Skill.mk
          (mergeField body "name" (s.skill.get ⟨i, hi⟩).name)
          (mergeField body "proficiency" (s.skill.get ⟨i, hi⟩).proficiency)
          (mergeField body "logo" (s.skill.get ⟨i, hi⟩).logo)) }) := by
    unfold handle_put_skill
    simp only [hqs, hq, hqn, hbody, Bool.not_true, Bool.or_self, Bool.false_eq_true,
      if_false, Option.getD_some]
    rw [dif_pos hi]
  refine ⟨hmain, ?_, ?_, ?_, ?_, ?_, ?_, ?_, ?_⟩
  · intro h
    unfold mergeField
    rw [dictGet_eq_none_of_not_contains h]
  · intro h
    unfold mergeField
    rw [dictGet_eq_none_of_not_contains h]
  · intro h
    unfold mergeField
    rw [dictGet_eq_none_of_not_contains h]
  · rw [hmain]
  · rw [hmain]
  · rw [hmain]
  · rw [hmain]
    exact List.length_set s.skill i _
  · intro j hj
    rw [hmain]
    exact List.getElem?_set_ne (Ne.symm hj)

/-- C10 witness: PUT `/resume/skill?id=0` with only `proficiency` in the
body merges into the seeded skill, keeping its name and logo. -/
theorem handle_put_skill_spec_witness :
    handle_put_skill (some skillMergeBody) (some "0") reset_data =
      (Response.mk (Json.obj (skillFields
          (Skill.mk "Python" "Expert" "example-logo.png"))) 200,
        { reset_data with skill :=
            [Skill.mk "Python" "Expert" "example-logo.png"] }) :=
  (handle_put_skill_spec skillMergeBody "0" 0 reset_data (by decide) (by decide)
    (by decide) (by decide)).1

/-- C1: creating an experience (POST `/resume/experience`) or a skill
(POST `/resume/skill`) from a payload with every required field present
as a string answers 201 with the new index as `id`, and an immediately
following retrieve by that id (GET `/resume/experience/{id}`, GET
`/resume/skill?id=`) answers 200 with a record whose field values equal
the submitted ones. -/
theorem create_then_retrieve_roundtrip (securer : String → String)
    (ebody sbody : Dict) (efiles sfiles : Files) (s s1 : Store)
    (t c sd ed d nm pf qs : String)
    (ht : dictGet ebody "title" = some (Value.vStr t))
    (hc : dictGet ebody "company" = some (Value.vStr c))
    (hsd : dictGet ebody "start_date" = some (Value.vStr sd))
    (hed : dictGet ebody "end_date" = some (Value.vStr ed))
    (hd : dictGet ebody "description" = some (Value.vStr d))
    (hn : dictGet sbody "name" = some (Value.vStr nm))
    (hpf : dictGet sbody "proficiency" = some (Value.vStr pf))
    (hq : pyParseInt qs = some (s1.skill.length : Int)) :
    (experiencePost securer (some ebody) efiles s).1 =
      Response.mk (Json.obj [("message", JVal.str "New experience created"),
        ("id", JVal.int s.experience.length)]) 201 ∧
    experience_by_index Method.GET none s.experience.length
        (experiencePost securer (some ebody) efiles s).2 =
      (Response.mk (Json.obj [("title", JVal.str t), ("company", JVal.str c),
        ("start_date", JVal.str sd), ("end_date", JVal.str ed),
        ("description", JVal.str d),
        ("logo", JVal.str (logoOrDefault securer efiles DEFAULT_LOGO)),
        ("id", JVal.null)]) 200,
       (experiencePost securer (some ebody) efiles s).2) ∧
    (handle_post_skill securer (some sbody) sfiles s1).1 =
      Response.mk (Json.obj [("message", JVal.str "New skill created"),
        ("id", JVal.int s1.skill.length)]) 201 ∧
    handle_get_skill (some qs) (handle_post_skill securer (some sbody) sfiles s1).2 =
      (Response.mk (Json.obj [("name", JVal.str nm), ("proficiency", JVal.str pf),
        ("logo", JVal.str (save_logo_file securer (filesGet sfiles "logo")))]) 200,
       (handle_post_skill securer (some sbody) sfiles s1).2) := by
  have hemi : handle_missing_invalid_fields ebody
      ["title", "company", "start_date", "end_date", "description"] = ([], []) := by
    unfold handle_missing_invalid_fields
    simp [dictContains_of_dictGet ht, dictContains_of_dictGet hc,
      dictContains_of_dictGet hsd, dictContains_of_dictGet hed,
      dictContains_of_dictGet hd, ht, hc, hsd, hed, hd]
  have hsmi : handle_missing_invalid_fields sbody ["name", "proficiency"] =
      ([], []) := by
    unfold handle_missing_invalid_fields
    simp [dictContains_of_dictGet hn, dictContains_of_dictGet hpf, hn, hpf]
  have hpost : experiencePost securer (some ebody) efiles s =
      (Response.mk (Json.obj [("message", JVal.str "New experience created"),
        ("id", JVal.int s.experience.length)]) 201,
       { s with experience := s.experience ++
          [Experience.mk t c sd ed d (logoOrDefault securer efiles DEFAULT_LOGO) none] }) := by
    unfold experiencePost
    simp only [pyTruthyBody_of_ne_nil (ne_nil_of_dictGet ht), Bool.not_true,
      Bool.false_eq_true, if_false, Option.getD_some, hemi]
    simp [dictStr, ht, hc, hsd, hed, hd, Value.asStr, List.length_append]
  have hspost : handle_post_skill securer (some sbody) sfiles s1 =
      (Response.mk (Json.obj [("message", JVal.str "New skill created"),
        ("id", JVal.int s1.skill.length)]) 201,
       { s1 with skill := s1.skill ++
          [Skill.mk nm pf (save_logo_file securer (filesGet sfiles "logo"))] }) := by
    unfold handle_post_skill
    simp only [pyTruthyBody_of_ne_nil (ne_nil_of_dictGet hn), Bool.not_true,
      Bool.false_eq_true, if_false, Option.getD_some, hsmi]
    simp [dictStr, hn, hpf, Value.asStr, List.length_append]
  refine ⟨by rw [hpost], ?_, by rw [hspost], ?_⟩
  · rw [hpost]
    unfold experience_by_index
    have hlen : s.experience.length <
        (s.experience ++
          [Experience.mk t c sd ed d (logoOrDefault securer efiles DEFAULT_LOGO) none]).length := by
      simp
    rw [dif_pos hlen]
    rw [get_concat_self]
    rfl
  · rw [hspost]
    simp only [handle_get_skill, hq]
    have hcond : (0 : Int) ≤ (s1.skill.length : Int) ∧
        ((s1.skill.length : Int)).toNat <
          (s1.skill ++
            [Skill.mk nm pf (save_logo_file securer (filesGet sfiles "logo"))]).length := by
      refine ⟨Int.natCast_nonneg _, ?_⟩
      rw [Int.toNat_natCast]
      simp
    rw [dif_pos hcond]
    have hget : (s1.skill ++
        [Skill.mk nm pf (save_logo_file securer (filesGet sfiles "logo"))]).get
          ⟨((s1.skill.length : Int)).toNat, hcond.2⟩ =
        Skill.mk nm pf (save_logo_file securer (filesGet sfiles "logo")) := by
      simp [List.get_eq_getElem, Int.toNat_natCast]
    rw [hget]
    rfl

/-- C1 witness: POST the concrete experience and skill payloads against
the seeded store, retrieving the skill with the query string "1". -/
theorem create_then_retrieve_roundtrip_witness :
    experience_by_index Method.GET none reset_data.experience.length
        (experiencePost id (some expUpdateBody) [] reset_data).2 =
      (Response.mk (Json.obj [("title", JVal.str "Updated Title"),
        ("company", JVal.str "New Co"), ("start_date", JVal.str "Jan 2024"),
        ("end_date", JVal.str "Present"),
        ("description", JVal.str "New description"),
        ("logo", JVal.str (logoOrDefault id [] DEFAULT_LOGO)),
        ("id", JVal.null)]) 200,
       (experiencePost id (some expUpdateBody) [] reset_data).2) ∧
    handle_get_skill (some "1")
        (handle_post_skill id (some skillCreateBody) [] reset_data).2 =
      (Response.mk (Json.obj [("name", JVal.str "JavaScript"),
        ("proficiency", JVal.str "2-4 years"),
        ("logo", JVal.str (save_logo_file id (filesGet [] "logo")))]) 200,
       (handle_post_skill id (some skillCreateBody) [] reset_data).2) :=
  ⟨(create_then_retrieve_roundtrip id expUpdateBody skillCreateBody [] []
      reset_data reset_data "Updated Title" "New Co" "Jan 2024" "Present"
      "New description" "JavaScript" "2-4 years" "1" rfl rfl rfl rfl rfl rfl rfl
      (by decide)).2.1,
   (create_then_retrieve_roundtrip id expUpdateBody skillCreateBody [] []
      reset_data reset_data "Updated Title" "New Co" "Jan 2024" "Present"
      "New description" "JavaScript" "2-4 years" "1" rfl rfl rfl rfl rfl rfl rfl
      (by decide)).2.2.2⟩

/-- C9: the spellcheck endpoint answers 200 with one
`{before, after}` entry per populated recognized text field, in input
array order with experience before education before skill and title
before description within an experience. -/
theorem spellcheck_entries_spec (checker : SpellChecker) (req : SpellcheckRequest) :
    spellcheck checker req =
      Response.mk (Json.arrObj
        ((recognizedTexts req).map (spellcheckEntry checker))) 200 := by
  have hdict : ∀ (keys : List String) (d : Dict),
      spellcheckDictEntries checker keys d =
        (keys.flatMap (fun key => (populatedField d key).toList)).map
          (spellcheckEntry checker) := by
    intro keys d
    induction keys with
    | nil => rfl
    | cons k ks ih =>
        unfold spellcheckDictEntries at ih ⊢
        simp only [List.flatMap_cons, List.map_append, ih]
        cases populatedField d k <;> simp
  have hflat : ∀ (keys : List String) (l : List Dict),
      l.flatMap (spellcheckDictEntries checker keys) =
        (l.flatMap (fun d =>
          keys.flatMap (fun key => (populatedField d key).toList))).map
          (spellcheckEntry checker) := by
    intro keys l
    rw [List.map_flatMap]
    congr 1
    exact funext (fun d => hdict keys d)
  unfold spellcheck recognizedTexts
  rw [hflat, hflat, hflat, List.map_append, List.map_append]
  simp [List.flatMap_cons, List.flatMap_nil]

end Resume
